import Mathlib

/-!
# Verification of the ali-flux MCP server core logic

Shallow embedding of the TypeScript source in `src/index.ts` /
`src/unnamed/part_000` (the evolved variant with `base_dir` support, which is
the one the specification describes).  The embedding models:

* the POSIX behaviour of Node's `path` module functions used by the source
  (`isAbsolute`, `parse`, `dirname`, `join`, `sep`);
* the argument validators `isValidGenerateImageArgs` / `isValidTaskIdArgs`;
* `generateImage` (job submission with JS default/falsiness semantics);
* `downloadImage` (status check, artifact-URL extraction, destination
  resolution, directory creation, sequential download loop), with the
  filesystem and HTTP collaborators passed in as oracles and an explicit
  event trace recording every externally visible I/O action.

JavaScript exceptions are modelled with an explicit error type that records
whether `axios.isAxiosError` recognises the error, because the source's
`catch` blocks branch on exactly that.
-/

namespace AliFlux

/-! ## POSIX model of Node's `path` module

The server runs `path.isAbsolute`, `path.parse`, `path.dirname`,
`path.join` and compares against `path.sep`.  On POSIX `path.sep = "/"`.
The definitions below reproduce the algorithms of Node's `lib/path.js`
(posix branch), working on `String.data` character lists so that all
recursion is structural. -/

namespace NodePath

/-- `path.isAbsolute` on POSIX: the string starts with `'/'`. -/
def isAbsolute (s : String) : Bool :=
  match s.data with
  | '/' :: _ => true
  | _ => false

/-- Whether the string contains the POSIX separator `'/'`.  The source
checks both `includes(path.sep)` and `includes("/")`; on POSIX these
coincide. -/
def hasSlash (s : String) : Bool :=
  s.data.contains '/'

/-- Remove the trailing run of `'/'` characters (Node's scans skip
trailing separators via its `matchedSlash` flag). -/
def stripTrailingSlashes : List Char → List Char
  | [] => []
  | c :: rest =>
    let r := stripTrailingSlashes rest
    if r = [] ∧ c = '/' then [] else c :: r

/-- Remove the trailing run of non-`'/'` characters, keeping everything up
to and including the last separator (empty if there is no separator). -/
def dropLastSegment : List Char → List Char
  | [] => []
  | c :: rest =>
    let r := dropLastSegment rest
    if r = [] ∧ c ≠ '/' then [] else c :: r

/-- The trailing run of non-`'/'` characters. -/
def lastSegment (cs : List Char) : List Char :=
  (cs.reverse.takeWhile (· != '/')).reverse

/-- `path.dirname` on POSIX.  Node scans from the end skipping trailing
separators, finds the separator preceding the last path segment (only at
index ≥ 1), and returns everything before it; special cases: no such
separator yields `"/"` for rooted paths and `"."` otherwise, and a rooted
path whose relevant separator sits at index 1 yields `"//"`. -/
def dirnameL (cs : List Char) : List Char :=
  if cs = [] then ['.'] else
  let hasRoot := cs.head? = some '/'
  let d := dropLastSegment (stripTrailingSlashes cs)
  if d.length ≤ 1 then (if hasRoot then ['/'] else ['.'])
  else if hasRoot ∧ d.length = 2 then d
  else d.dropLast

def dirname (s : String) : String :=
  String.mk (dirnameL s.data)

/-- The `ext` component Node's `path.parse` computes from the final path
segment: the substring from the last `'.'`, except that there is no
extension when the segment has no dot, when the only relevant dot is the
segment's first character (dotfiles), or when the segment is exactly
`".."`. -/
def extOfSeg (seg : List Char) : List Char :=
  if seg = ['.', '.'] then [] else
  let rafter := seg.reverse.takeWhile (· != '.')
  if rafter.length = seg.length then []
  else if rafter.length + 1 = seg.length then []
  else '.' :: rafter.reverse

/-- The components of `path.parse` the source consults. -/
structure ParsedPath where
  dir : String
  base : String
  ext : String
deriving DecidableEq, Repr

/-- `path.parse` on POSIX, restricted to the `dir`/`base`/`ext` fields the
source reads.  Trailing separators are skipped, `base` is the last segment,
`dir` is everything before the separator in front of it (with Node's
root-path special cases). -/
def parse (p : String) : ParsedPath :=
  let cs := p.data
  if cs = [] then ⟨"", "", ""⟩ else
  let isAbs := cs.head? = some '/'
  let t := stripTrailingSlashes cs
  let seg := lastSegment t
  let pre := dropLastSegment t
  let dir :=
    if pre.length ≤ 1 then (if isAbs then "/" else "")
    else String.mk pre.dropLast
  ⟨dir, String.mk seg, String.mk (extOfSeg seg)⟩

/-- Split a character list on `'/'`; the result is never empty. -/
def splitSlash : List Char → List (List Char)
  | [] => [[]]
  | c :: rest =>
    match splitSlash rest with
    | [] => [[]]
    | s :: ss => if c = '/' then [] :: s :: ss else (c :: s) :: ss

/-- Node's `normalizeString`: drop empty segments and `"."`, resolve
`".."` against the previous kept segment, letting `".."` escape upwards
only for relative paths (`allowAboveRoot`). -/
def normSegs (segs : List (List Char)) (allowAboveRoot : Bool) :
    List (List Char) :=
  (segs.foldl (fun acc s =>
    if s = [] ∨ s = ['.'] then acc
    else if s = ['.', '.'] then
      match acc with
      | [] => if allowAboveRoot then [['.', '.']] else []
      | t :: rest => if t = ['.', '.'] then s :: acc else rest
    else s :: acc) []).reverse

def intercalateSlash : List (List Char) → List Char
  | [] => []
  | [s] => s
  | s :: rest => s ++ '/' :: intercalateSlash rest

/-- `path.normalize` on POSIX. -/
def normalizeL (cs : List Char) : List Char :=
  if cs = [] then ['.'] else
  let isAbs := cs.head? = some '/'
  let trailing := cs.getLast? = some '/'
  let body := intercalateSlash (normSegs (splitSlash cs) (!isAbs))
  if body = [] then
    if isAbs then ['/'] else if trailing then ['.', '/'] else ['.']
  else
    let body := if trailing then body ++ ['/'] else body
    if isAbs then '/' :: body else body

/-- `path.join(a, b)` on POSIX: concatenate the non-empty arguments with a
separator and normalize; with no non-empty argument the result is `"."`. -/
def join (a b : String) : String :=
  let joined :=
    if a.data = [] then b.data
    else if b.data = [] then a.data
    else a.data ++ '/' :: b.data
  if joined = [] then "." else String.mk (normalizeL joined)

end NodePath

/-! ## Data model -/

/-- The process-wide configuration read from the environment at startup.
`SAVE_DIR` is the default save directory, `WORK_DIR` the default base
directory for resolving relative paths. -/
structure Config where
  SAVE_DIR : String
  WORK_DIR : String
deriving DecidableEq, Repr

/-- A JavaScript exception, tagged by whether `axios.isAxiosError`
recognises it.  `axiosErr` carries the stringified response data / message
the source interpolates into its error text; `jsErr` covers every other
runtime exception (`TypeError`, filesystem errors, ...). -/
inductive JsError where
  | axiosErr (data : String)
  | jsErr (msg : String)
deriving DecidableEq, Repr

/-- Arguments of `check_task_status` / `download_image` after the dispatch
layer's JSON decoding: `task_id` is a string, `save_path` and `base_dir`
are optional strings (`none` models an absent field). -/
structure TaskArgs where
  task_id : String
  save_path : Option String := none
  base_dir : Option String := none
deriving DecidableEq, Repr

/-- The validator `isValidTaskIdArgs` of the evolved variant: `task_id`
must be a string (guaranteed here by typing), `save_path`, if present, must
be a string that is absolute (`path.isAbsolute`) or empty, and `base_dir`,
if present, must be a string (again guaranteed by typing). -/
def isValidTaskIdArgs (args : TaskArgs) : Bool :=
  match args.save_path with
  | none => true
  | some s => NodePath.isAbsolute s || s == ""

/-- Arguments of `generate_image` after JSON decoding, shaped as
`isValidGenerateImageArgs` requires: `prompt` a string, `size` an optional
string, `seed` and `steps` optional numbers (modelled as integers; the
source never checks integrality beyond `typeof ... === "number"`). -/
structure GenArgs where
  prompt : String
  size : Option String := none
  seed : Option Int := none
  steps : Option Int := none
deriving DecidableEq, Repr

/-- The `parameters` object of the outbound generation request. -/
structure GenParams where
  size : String
  seed : Int
  steps : Int
deriving DecidableEq, Repr

/-- One entry of the aggregate download report. -/
structure Download where
  url : String
  saved_to : String
deriving DecidableEq, Repr

/-- The `output` object of the remote task-status payload: a status string
and, optionally, the `results` array projected to its `url` fields
(`none` models an absent `results` field, on which `.map` throws). -/
structure TaskStatus where
  task_status : String
  results : Option (List String)
deriving DecidableEq, Repr

/-- Externally visible I/O actions, in program order. -/
inductive Ev where
  | statusFetch (task_id : String)
  | existsCheck (dir : String)
  | mkdirCall (dir : String)
  | artifactFetch (url : String)
  | fileWrite (path : String)
  | submitGen (model : String) (prompt : String) (params : GenParams)
deriving DecidableEq, Repr

/-- Filesystem oracle: `existsSync` reports whether *any* entry (file or
directory alike) exists at a path; `mkdirSync` and `writeFile` either
succeed or raise.  `mkdirSync` failures carry only the message because the
source stringifies them uniformly; `writeFile` failures carry a full
`JsError` because the outer handler branches on `axios.isAxiosError`. -/
structure Fs where
  existsSync : String → Bool
  mkdirSync : String → Except String Unit
  writeFile : String → Except JsError Unit

/-- HTTP oracle: the task-status GET and the per-artifact content GET. -/
structure Http where
  getStatus : String → Except JsError TaskStatus
  getArtifact : String → Except JsError Unit

/-- Result of a `download_image` call, one constructor per return site of
the source, each carrying the dynamic data its `text` embeds:
`invalidParams` is the thrown `McpError(InvalidParams)`; `thrown` is a
non-axios exception re-raised to the host dispatch layer; everything else
is a structured tool result. -/
inductive DlOutcome where
  | invalidParams
  | apiError (data : String)
  | notSucceeded (statusData : TaskStatus)
  | noArtifacts
  | invalidSavePath (p : String)
  | dirCreateFailed (msg : String)
  | thrown (msg : String)
  | completed (task_id : String) (downloads : List Download)
deriving DecidableEq, Repr

/-- The `isError` flag of the structured result a `DlOutcome` corresponds
to; `none` for the two outcomes that are exceptions rather than results. -/
def isErrorFlagged : DlOutcome → Option Bool
  | .invalidParams => none
  | .thrown _ => none
  | .completed _ _ => some false
  | _ => some true

/-- Result of a `generate_image` call. -/
inductive GenOutcome where
  | invalidParams
  | apiError (data : String)
  | thrown (msg : String)
  | success (responseData : String)
deriving DecidableEq, Repr

/-! ## Job submission (`generateImage`) -/

/-- JS `a || dflt` on an optional string: absent and empty (falsy) values
fall back to the default. -/
def jsOr (o : Option String) (dflt : String) : String :=
  match o with
  | some s => if s = "" then dflt else s
  | none => dflt

/-- The `parameters` object `generateImage` submits.  `rand` is the value
of `Math.random()` (a real in `[0,1)`, modelled as a rational):
`size: args.size || "1024*1024"` (JS falsiness: empty string defaults),
`seed: args.seed !== undefined ? args.seed : Math.floor(Math.random()*1000)`,
`steps: args.steps || 4` (JS falsiness: `0` defaults to `4`). -/
def buildGenParams (args : GenArgs) (rand : ℚ) : GenParams :=
  { size := jsOr args.size "1024*1024"
    seed :=
      match args.seed with
      | some v => v
      | none => Int.floor (rand * 1000)
    steps :=
      match args.steps with
      | some v => if v = 0 then 4 else v
      | none => 4 }

/-- `generateImage` on arguments that passed `isValidGenerateImageArgs`:
build the parameters, issue exactly one POST to the generation endpoint,
and return the remote payload, an error-flagged result for an axios error,
or re-raise anything else. -/
def generateImage (MODEL_NAME : String)
    (post : GenParams → Except JsError String) (rand : ℚ) (args : GenArgs) :
    GenOutcome × List Ev :=
  let params := buildGenParams args rand
  let ev := [Ev.submitGen MODEL_NAME args.prompt params]
  match post params with
  | .ok data => (.success data, ev)
  | .error (.axiosErr d) => (.apiError d, ev)
  | .error (.jsErr m) => (.thrown m, ev)

/-! ## Destination resolution (`downloadImage`, lines 806-874) -/

/-- Outcome of destination resolution: either the in-function rejection of
a non-absolute `save_path`, or the resolved absolute directory together
with the filename override (`customFilename`). -/
inductive ResolveOutcome where
  | invalidPath (p : String)
  | resolved (dir : String) (customFilename : Option String)
deriving DecidableEq, Repr

/-- The final resolution step: an absolute `targetDir` is used as-is, a
relative or empty one is joined onto `baseDir` with `path.join`. -/
def finishResolve (baseDir targetDir : String) (cfn : Option String) :
    ResolveOutcome :=
  .resolved
    (if NodePath.isAbsolute targetDir then targetDir
     else NodePath.join baseDir targetDir) cfn

/-- Destination resolution, verbatim from the source:
`baseDir = base_dir || WORK_DIR`; a truthy `save_path` must be absolute;
`hasExtension = parsed.ext && parsed.base !== parsed.dir`; with an
extension, a value without any separator gets `targetDir = ""` (later
joined with `baseDir`) and the whole value as filename, otherwise
`targetDir = path.dirname(save_path)` and `parsed.base` as filename;
without an extension the whole value is the directory; with no (truthy)
`save_path` the directory is `SAVE_DIR`. -/
def resolveTargetDir (cfg : Config) (save_path base_dir : Option String) :
    ResolveOutcome :=
  let baseDir := jsOr base_dir cfg.WORK_DIR
  match save_path with
  | some s =>
    if s = "" then finishResolve baseDir cfg.SAVE_DIR none
    else if NodePath.isAbsolute s then
      let pp := NodePath.parse s
      if pp.ext ≠ "" ∧ pp.base ≠ pp.dir then
        let targetDir :=
          if NodePath.hasSlash s then NodePath.dirname s else ""
        finishResolve baseDir targetDir (some pp.base)
      else finishResolve baseDir s none
    else .invalidPath s
  | none => finishResolve baseDir cfg.SAVE_DIR none

/-! ## Artifact retrieval (`downloadImage`) -/

/-- The filename for artifact `i`:
`i === 0 && customFilename ? customFilename : task_id + "_" + i + ".png"`
(the override applies only at index 0 and only when truthy, i.e.
non-empty). -/
def artifactFilename (task_id : String) (customFilename : Option String)
    (i : Nat) : String :=
  match i, customFilename with
  | 0, some f =>
    if f = "" then task_id ++ "_" ++ Nat.repr 0 ++ ".png" else f
  | i, _ => task_id ++ "_" ++ Nat.repr i ++ ".png"

/-- The message of the `TypeError` JavaScript raises when
`statusData.output.results` is `undefined` and `.map` is read off it. -/
def mapUndefinedMsg : String :=
  "TypeError: Cannot read properties of undefined (reading 'map')"

/-- The directory-preparation step inside the inner `try`:
`if (!fs.existsSync(absoluteTargetDir)) fs.mkdirSync(..., {recursive:true})`.
Returns the error message on a `mkdirSync` throw, plus the events
performed. -/
def dirPhase (fs : Fs) (dir : String) : Except String Unit × List Ev :=
  if fs.existsSync dir then (.ok (), [.existsCheck dir])
  else
    match fs.mkdirSync dir with
    | .ok _ => (.ok (), [.existsCheck dir, .mkdirCall dir])
    | .error m => (.error m, [.existsCheck dir, .mkdirCall dir])

/-- The sequential download loop: for each URL at index `i`, compute the
filename, `path.join` it onto the target directory, fetch the URL, write
the file, and record the pair; the first raised exception aborts the rest
of the batch. -/
def downloadLoop (http : Http) (fs : Fs) (targetDir task_id : String)
    (cfn : Option String) :
    List String → Nat → Except JsError (List Download) × List Ev
  | [], _ => (.ok [], [])
  | url :: rest, i =>
    let savePath := NodePath.join targetDir (artifactFilename task_id cfn i)
    match http.getArtifact url with
    | .error e => (.error e, [.artifactFetch url])
    | .ok _ =>
      match fs.writeFile savePath with
      | .error e => (.error e, [.artifactFetch url, .fileWrite savePath])
      | .ok _ =>
        match downloadLoop http fs targetDir task_id cfn rest (i + 1) with
        | (.error e, ev) =>
          (.error e, .artifactFetch url :: .fileWrite savePath :: ev)
        | (.ok ds, ev) =>
          (.ok (⟨url, savePath⟩ :: ds),
            .artifactFetch url :: .fileWrite savePath :: ev)

/-- How the outer `try`/`catch` converts a loop exception: axios errors
become an error-flagged result, anything else is re-raised. -/
def loopFinish (task_id : String) :
    Except JsError (List Download) → DlOutcome
  | .ok ds => .completed task_id ds
  | .error (.axiosErr d) => .apiError d
  | .error (.jsErr m) => .thrown m

/-- `downloadImage` (evolved variant): validate the arguments, fetch the
task status, require `task_status === "SUCCEEDED"`, extract the artifact
URLs (an absent `results` field raises a `TypeError` that the axios-only
`catch` re-raises), reject an empty URL list, resolve the destination,
prepare the directory (a `mkdirSync` throw yields the distinct
`dirCreateFailed` result), then download each artifact in order. -/
def downloadImage (cfg : Config) (http : Http) (fs : Fs) (args : TaskArgs) :
    DlOutcome × List Ev :=
  if isValidTaskIdArgs args then
    match http.getStatus args.task_id with
    | .error (.axiosErr d) => (.apiError d, [.statusFetch args.task_id])
    | .error (.jsErr m) => (.thrown m, [.statusFetch args.task_id])
    | .ok statusData =>
      if statusData.task_status = "SUCCEEDED" then
        match statusData.results with
        | none => (.thrown mapUndefinedMsg, [.statusFetch args.task_id])
        | some imageUrls =>
          match imageUrls with
          | [] => (.noArtifacts, [.statusFetch args.task_id])
          | url0 :: restUrls =>
            match resolveTargetDir cfg args.save_path args.base_dir with
            | .invalidPath p =>
              (.invalidSavePath p, [.statusFetch args.task_id])
            | .resolved dir cfn =>
              match dirPhase fs dir with
              | (.error m, ev) =>
                (.dirCreateFailed m, .statusFetch args.task_id :: ev)
              | (.ok _, ev) =>
                match downloadLoop http fs dir args.task_id cfn
                    (url0 :: restUrls) 0 with
                | (r, lev) =>
                  (loopFinish args.task_id r,
                    .statusFetch args.task_id :: ev ++ lev)
      else (.notSucceeded statusData, [.statusFetch args.task_id])
  else (.invalidParams, [])

/-! ## Helper lemmas about the path model -/

namespace NodePath

theorem isAbsolute_of_head {l : List Char} (h : l.head? = some '/') :
    isAbsolute (String.mk l) = true := by
  cases l with
  | nil => exact absurd h (by simp)
  | cons a t =>
    have : a = '/' := by simpa using h
    subst this
    rfl

theorem head_of_isAbsolute {s : String} (h : isAbsolute s = true) :
    s.data.head? = some '/' := by
  unfold isAbsolute at h
  cases hd : s.data with
  | nil => rw [hd] at h; exact absurd h (by simp)
  | cons a t =>
    rw [hd] at h
    cases a_eq : a == '/' with
    | false =>
      exfalso
      revert h
      cases ha : a
      simp_all [String.data]
    | true => simp_all

theorem stripTrailingSlashes_head (cs : List Char) :
    stripTrailingSlashes cs = [] ∨
      (stripTrailingSlashes cs).head? = cs.head? := by
  cases cs with
  | nil => exact Or.inl rfl
  | cons c rest =>
    unfold stripTrailingSlashes
    by_cases h : stripTrailingSlashes rest = [] ∧ c = '/'
    · exact Or.inl (by simp [h])
    · exact Or.inr (by simp [h])

theorem dropLastSegment_head (cs : List Char) :
    dropLastSegment cs = [] ∨ (dropLastSegment cs).head? = cs.head? := by
  cases cs with
  | nil => exact Or.inl rfl
  | cons c rest =>
    unfold dropLastSegment
    by_cases h : dropLastSegment rest = [] ∧ c ≠ '/'
    · exact Or.inl (by simp [h])
    · exact Or.inr (by simp [h])

theorem dropLast_head {l : List Char} (h : 2 ≤ l.length) :
    l.dropLast.head? = l.head? := by
  match l, h with
  | a :: b :: t, _ => simp

/-- `path.dirname` of an absolute path is absolute: every branch of the
algorithm returns a string that still starts with `'/'`. -/
theorem isAbsolute_dirname {s : String} (h : isAbsolute s = true) :
    isAbsolute (dirname s) = true := by
  have hhead := head_of_isAbsolute h
  have hne : s.data ≠ [] := by
    intro hnil; rw [hnil] at hhead; exact absurd hhead (by simp)
  unfold dirname dirnameL
  rw [if_neg hne]
  have hroot : s.data.head? = some '/' := hhead
  have hd : dropLastSegment (stripTrailingSlashes s.data) = [] ∨
      (dropLastSegment (stripTrailingSlashes s.data)).head? = some '/' := by
    rcases dropLastSegment_head (stripTrailingSlashes s.data) with h1 | h1
    · exact Or.inl h1
    · rcases stripTrailingSlashes_head s.data with h2 | h2
      · exact Or.inl (by rw [h2] at h1 ⊢; simpa using h1)
      · exact Or.inr (by rw [h1, h2, hroot])
  by_cases hlen :
      (dropLastSegment (stripTrailingSlashes s.data)).length ≤ 1
  · rw [if_pos hlen, if_pos hroot]
    rfl
  · rw [if_neg hlen]
    rcases hd with hd | hd
    · exact absurd (by rw [hd]; simp : _) hlen
    by_cases h2 : s.data.head? = some '/' ∧
        (dropLastSegment (stripTrailingSlashes s.data)).length = 2
    · rw [if_pos h2]
      exact isAbsolute_of_head hd
    · rw [if_neg h2]
      refine isAbsolute_of_head ?_
      rw [dropLast_head (by omega), hd]

theorem hasSlash_of_isAbsolute {s : String} (h : isAbsolute s = true) :
    hasSlash s = true := by
  have hhead := head_of_isAbsolute h
  unfold hasSlash
  cases hd : s.data with
  | nil => rw [hd] at hhead; exact absurd hhead (by simp)
  | cons a t =>
    rw [hd] at hhead
    have : a = '/' := by simpa using hhead
    subst this
    simp

theorem not_isAbsolute_of_no_slash {s : String} (h : hasSlash s = false) :
    isAbsolute s = false := by
  cases hab : isAbsolute s with
  | false => rfl
  | true => rw [hasSlash_of_isAbsolute hab] at h; exact absurd h (by simp)

end NodePath

/-! ## Injectivity of the decimal naming pattern

JavaScript renders the loop index `i` in `` `${task_id}_${i}.png` `` in
decimal; the embedding uses `Nat.repr`.  The lemmas below prove `Nat.repr`
injective, from which the pattern filenames of two distinct indices are
distinct. -/

/-- The decimal character list of a natural number (most significant digit
first); reference function used to characterise `Nat.toDigitsCore`. -/
def decChars (n : Nat) : List Char :=
  if _ : n < 10 then [Nat.digitChar n]
  else decChars (n / 10) ++ [Nat.digitChar (n % 10)]
decreasing_by exact Nat.div_lt_self (by omega) (by decide)

theorem decChars_ne_nil (n : Nat) : decChars n ≠ [] := by
  rw [decChars]
  split
  · simp
  · simp

theorem decChars_small {n : Nat} (h : n < 10) :
    decChars n = [Nat.digitChar n] := by
  rw [decChars]
  exact dif_pos h

theorem decChars_large {n : Nat} (h : ¬ n < 10) :
    decChars n = decChars (n / 10) ++ [Nat.digitChar (n % 10)] := by
  rw [decChars]
  exact dif_neg h

theorem toDigitsCore_eq_decChars :
    ∀ (fuel n : Nat) (ds : List Char), n < fuel →
      Nat.toDigitsCore 10 fuel n ds = decChars n ++ ds := by
  intro fuel
  induction fuel with
  | zero => intro n ds h; exact absurd h (by omega)
  | succ fuel ih =>
    intro n ds h
    simp only [Nat.toDigitsCore]
    by_cases h10 : n / 10 = 0
    · have hn : n < 10 := by omega
      rw [if_pos h10, decChars_small hn, Nat.mod_eq_of_lt hn]
      simp
    · have hn : ¬ n < 10 := by omega
      rw [if_neg h10, ih (n / 10) _ (by omega), decChars_large hn]
      simp

theorem digitChar_inj {m n : Nat} (hm : m < 10) (hn : n < 10)
    (h : Nat.digitChar m = Nat.digitChar n) : m = n := by
  interval_cases m <;> interval_cases n <;> revert h <;> decide

theorem decChars_inj (m : Nat) : ∀ n, decChars m = decChars n → m = n := by
  induction m using Nat.strong_induction_on with
  | _ m ih =>
    intro n h
    by_cases hm : m < 10 <;> by_cases hn : n < 10
    · rw [decChars_small hm, decChars_small hn] at h
      exact digitChar_inj hm hn (by injection h)
    · rw [decChars_small hm, decChars_large hn] at h
      rcases hnil : decChars (n / 10) with _ | ⟨a, t⟩
      · exact absurd hnil (decChars_ne_nil _)
      · rw [hnil] at h
        simp at h
    · rw [decChars_large hm, decChars_small hn] at h
      rcases hnil : decChars (m / 10) with _ | ⟨a, t⟩
      · exact absurd hnil (decChars_ne_nil _)
      · rw [hnil] at h
        simp at h
    · rw [decChars_large hm, decChars_large hn] at h
      obtain ⟨h1, h2⟩ := List.append_inj' h rfl
      have e1 : m / 10 = n / 10 :=
        ih (m / 10) (Nat.div_lt_self (by omega) (by decide)) (n / 10) h1
      have e2 : m % 10 = n % 10 :=
        digitChar_inj (Nat.mod_lt _ (by decide)) (Nat.mod_lt _ (by decide))
          (by injection h2)
      omega

theorem natReprData_inj {m n : Nat}
    (h : (Nat.repr m).data = (Nat.repr n).data) : m = n := by
  have em : (Nat.repr m).data = decChars m := by
    show (Nat.toDigits 10 m).asString.data = _
    rw [Nat.toDigits, toDigitsCore_eq_decChars (m + 1) m [] (by omega)]
    simp [List.asString]
  have en : (Nat.repr n).data = decChars n := by
    show (Nat.toDigits 10 n).asString.data = _
    rw [Nat.toDigits, toDigitsCore_eq_decChars (n + 1) n [] (by omega)]
    simp [List.asString]
  exact decChars_inj m n (em ▸ en ▸ h)

/-- Two pattern-named artifact files of the same batch with distinct
indices have distinct names. -/
theorem patternFilename_inj {tid : String} {i j : Nat}
    (h : tid ++ "_" ++ Nat.repr i ++ ".png" = tid ++ "_" ++ Nat.repr j ++ ".png") :
    i = j := by
  have e : ∀ a b : String, (a ++ b).data = a.data ++ b.data := fun _ _ => rfl
  have hd := congrArg String.data h
  rw [e, e, e, e, e, e] at hd
  simp only [List.append_assoc] at hd
  have h1 := List.append_cancel_left hd
  have h2 := List.append_cancel_left h1
  exact natReprData_inj (List.append_cancel_right h2)

/-! ## Helper lemmas about the download loop -/

/-- The download loop performs only artifact fetches and file writes: it
never calls `mkdirSync`. -/
theorem downloadLoop_no_mkdir (http : Http) (fs : Fs) (dir tid : String)
    (cfn : Option String) :
    ∀ (urls : List String) (i : Nat) (d : String),
      Ev.mkdirCall d ∉ (downloadLoop http fs dir tid cfn urls i).2 := by
  intro urls
  induction urls with
  | nil => intro i d h; simp [downloadLoop] at h
  | cons u rest ih =>
    intro i d h
    unfold downloadLoop at h
    dsimp only at h
    cases hga : http.getArtifact u with
    | error e => rw [hga] at h; simp at h
    | ok v =>
      rw [hga] at h
      cases hw : fs.writeFile (NodePath.join dir (artifactFilename tid cfn i)) with
      | error e => rw [hw] at h; simp at h
      | ok w =>
        rw [hw] at h
        cases hrec : downloadLoop http fs dir tid cfn rest (i + 1) with
        | mk r lev =>
          rw [hrec] at h
          have hmem : Ev.mkdirCall d ∈ lev := by
            cases r <;> simpa using h
          exact ih (i + 1) d (by rw [hrec]; exact hmem)

/-- `loopFinish` never produces the directory-creation error result. -/
theorem loopFinish_ne_dirCreateFailed (tid : String)
    (r : Except JsError (List Download)) (m : String) :
    loopFinish tid r ≠ DlOutcome.dirCreateFailed m := by
  unfold loopFinish
  cases r with
  | ok ds => simp
  | error e => cases e <;> simp

/-- First step of the download loop when the fetch succeeds but the write
raises: the loop aborts with that exception after exactly one fetch and
one write attempt. -/
theorem downloadLoop_first_write_error (http : Http) (fs : Fs)
    (dir tid : String) (cfn : Option String) (u : String)
    (rest : List String) (e : JsError)
    (hga : http.getArtifact u = .ok ())
    (hw : fs.writeFile (NodePath.join dir (artifactFilename tid cfn 0)) = .error e) :
    downloadLoop http fs dir tid cfn (u :: rest) 0 =
      (.error e, [.artifactFetch u,
        .fileWrite (NodePath.join dir (artifactFilename tid cfn 0))]) := by
  unfold downloadLoop
  rw [hga]
  dsimp only
  rw [hw]

/-! ## Concrete fixtures used by counterexamples and witnesses -/

/-- Example process configuration (both directories absolute). -/
def exCfg : Config := { SAVE_DIR := "/srv/images", WORK_DIR := "/srv/work" }

/-- A status payload for a still-running task. -/
def statusRunning : TaskStatus := { task_status := "RUNNING", results := none }

/-- A SUCCEEDED status payload whose `results` field is absent. -/
def statusNoResults : TaskStatus :=
  { task_status := "SUCCEEDED", results := none }

/-- A SUCCEEDED status payload with an empty `results` array. -/
def statusEmptyResults : TaskStatus :=
  { task_status := "SUCCEEDED", results := some [] }

/-- A SUCCEEDED status payload with two artifact URLs. -/
def statusTwoResults : TaskStatus :=
  { task_status := "SUCCEEDED", results := some ["u0", "u1"] }

/-- HTTP oracle that reports the given status and serves every artifact. -/
def httpWith (st : TaskStatus) : Http :=
  { getStatus := fun _ => .ok st, getArtifact := fun _ => .ok () }

/-- Filesystem oracle on which nothing exists and every operation
succeeds. -/
def fsClean : Fs :=
  { existsSync := fun _ => false
    mkdirSync := fun _ => .ok ()
    writeFile := fun _ => .ok () }

/-- Filesystem oracle on which nothing exists and `mkdirSync` raises a
permission error. -/
def fsMkdirDenied : Fs :=
  { existsSync := fun _ => false
    mkdirSync := fun _ => .error "EACCES: permission denied"
    writeFile := fun _ => .ok () }

/-- Filesystem oracle on which every path exists (e.g. a regular file sits
at the resolved directory) and every write raises `ENOTDIR`, which is not
an axios error. -/
def fsFileInWay : Fs :=
  { existsSync := fun _ => true
    mkdirSync := fun _ => .ok ()
    writeFile := fun _ => .error (.jsErr "ENOTDIR: not a directory") }

/-- An absolute `targetDir` short-circuits `finishResolve`: the base
directory is ignored. -/
theorem finishResolve_abs {t : String} (h : NodePath.isAbsolute t = true)
    (b : String) (cfn : Option String) :
    finishResolve b t cfn = .resolved t cfn := by
  unfold finishResolve
  rw [if_pos h]

/-- The pattern name is used at every index when there is no override. -/
theorem artifactFilename_none (tid : String) (i : Nat) :
    artifactFilename tid none i = tid ++ "_" ++ Nat.repr i ++ ".png" := by
  cases i <;> rfl

/-- The pattern name is used at every positive index, override or not. -/
theorem artifactFilename_pos (tid : String) (cfn : Option String) (k : Nat) :
    artifactFilename tid cfn (k + 1) = tid ++ "_" ++ Nat.repr (k + 1) ++ ".png" := by
  cases cfn <;> rfl

/-! ## Claims -/

/-- C1 (counterexample): a `download_image` call with the bare filename
`save_path = "report.png"` and `base_dir = "/home/u/work"` never reaches
destination resolution: `isValidTaskIdArgs` rejects it (the value is
neither absolute nor empty) and the call raises `InvalidParams` with no
I/O at all, so no artifact is saved under `base_dir`. -/
theorem downloadImage_bare_filename_cex :
    isValidTaskIdArgs ⟨"t", some "report.png", some "/home/u/work"⟩ = false ∧
    downloadImage exCfg (httpWith statusTwoResults) fsClean
      ⟨"t", some "report.png", some "/home/u/work"⟩ =
      (.invalidParams, []) :=
  ⟨by decide, by decide⟩

/-- C1 (amended): every `download_image` call whose `save_path` is a bare
filename (non-empty, containing no `'/'`) is rejected by validation and
returns `InvalidParams` with an empty event trace; moreover even the
in-function resolution, run on such a value directly, rejects it as a
non-absolute path rather than producing `targetDir = ""`, so the
bare-filename branch is unreachable on POSIX. -/
theorem downloadImage_bare_filename_rejected
    (cfg : Config) (http : Http) (fs : Fs) (tid s : String)
    (bd : Option String) (h1 : s ≠ "") (h2 : NodePath.hasSlash s = false) :
    downloadImage cfg http fs ⟨tid, some s, bd⟩ = (.invalidParams, []) ∧
    resolveTargetDir cfg (some s) bd = .invalidPath s := by
  have habs : NodePath.isAbsolute s = false :=
    NodePath.not_isAbsolute_of_no_slash h2
  have hv : isValidTaskIdArgs ⟨tid, some s, bd⟩ = false := by
    simp [isValidTaskIdArgs, habs, h1]
  constructor
  · unfold downloadImage
    rw [if_neg (by simp [hv])]
  · unfold resolveTargetDir
    dsimp only
    rw [if_neg h1, if_neg (by simp [habs])]

/-- C1 (witness): the amended theorem applied at the boundary example. -/
theorem downloadImage_bare_filename_rejected_witness :
    downloadImage exCfg (httpWith statusTwoResults) fsClean
      ⟨"t", some "report.png", some "/home/u/work"⟩ = (.invalidParams, []) ∧
    resolveTargetDir exCfg (some "report.png") (some "/home/u/work") =
      .invalidPath "report.png" :=
  downloadImage_bare_filename_rejected exCfg (httpWith statusTwoResults)
    fsClean "t" "report.png" (some "/home/u/work") (by decide) (by decide)

/-- C2 (counterexample): on a `RUNNING` status the call returns the
structured result carrying the full status payload, but that result is
flagged `isError: true`, not a non-error result as claimed. -/
theorem downloadImage_notSucceeded_cex :
    downloadImage exCfg (httpWith statusRunning) fsClean ⟨"t", none, none⟩ =
      (.notSucceeded statusRunning, [Ev.statusFetch "t"]) ∧
    isErrorFlagged
      (downloadImage exCfg (httpWith statusRunning) fsClean
        ⟨"t", none, none⟩).1 = some true :=
  ⟨by decide, by decide⟩

/-- C2 (amended): for every validated `download_image` call whose status
fetch returns a payload with `task_status ≠ "SUCCEEDED"`, the call aborts
with the error-flagged (`isError: true`) structured result carrying the
full status payload, and the event trace shows exactly one status fetch —
no filesystem access and no artifact fetch. -/
theorem downloadImage_notSucceeded_flagged
    (cfg : Config) (http : Http) (fs : Fs) (args : TaskArgs)
    (st : TaskStatus)
    (hv : isValidTaskIdArgs args = true)
    (hst : http.getStatus args.task_id = .ok st)
    (hne : st.task_status ≠ "SUCCEEDED") :
    downloadImage cfg http fs args =
      (.notSucceeded st, [Ev.statusFetch args.task_id]) ∧
    isErrorFlagged (DlOutcome.notSucceeded st) = some true := by
  refine ⟨?_, rfl⟩
  unfold downloadImage
  rw [if_pos hv, hst]
  dsimp only
  rw [if_neg hne]

/-- C2 (witness): the amended theorem applied at the `RUNNING` example. -/
theorem downloadImage_notSucceeded_flagged_witness :
    downloadImage exCfg (httpWith statusRunning) fsClean ⟨"t", none, none⟩ =
      (.notSucceeded statusRunning, [Ev.statusFetch "t"]) ∧
    isErrorFlagged (DlOutcome.notSucceeded statusRunning) = some true :=
  downloadImage_notSucceeded_flagged exCfg (httpWith statusRunning) fsClean
    ⟨"t", none, none⟩ statusRunning (by decide) rfl (by decide)

/-- C3 (counterexample): a SUCCEEDED status with the `results` field
absent does not produce the error-flagged "no artifacts" result: reading
`.map` off `undefined` raises a `TypeError` that the axios-only `catch`
re-raises to the dispatch layer, so the outcome is a thrown exception, not
a structured result at all. -/
theorem downloadImage_noResults_cex :
    downloadImage exCfg (httpWith statusNoResults) fsClean
      ⟨"t", none, none⟩ =
      (.thrown mapUndefinedMsg, [Ev.statusFetch "t"]) ∧
    isErrorFlagged (DlOutcome.thrown mapUndefinedMsg) = none :=
  ⟨by decide, by decide⟩

/-- C3 (amended): for every validated call with a SUCCEEDED status, an
empty `results` list yields the error-flagged "no artifacts" result with
no filesystem access, while an absent `results` field raises a `TypeError`
that propagates as a thrown exception (also with no filesystem access);
in both cases the trace is exactly one status fetch. -/
theorem downloadImage_artifact_extraction
    (cfg : Config) (http : Http) (fs : Fs) (args : TaskArgs)
    (st : TaskStatus)
    (hv : isValidTaskIdArgs args = true)
    (hst : http.getStatus args.task_id = .ok st)
    (hsu : st.task_status = "SUCCEEDED") :
    (st.results = some [] →
      downloadImage cfg http fs args =
        (.noArtifacts, [Ev.statusFetch args.task_id]) ∧
      isErrorFlagged DlOutcome.noArtifacts = some true) ∧
    (st.results = none →
      downloadImage cfg http fs args =
        (.thrown mapUndefinedMsg, [Ev.statusFetch args.task_id]) ∧
      isErrorFlagged (DlOutcome.thrown mapUndefinedMsg) = none) := by
  constructor
  · intro hres
    refine ⟨?_, rfl⟩
    unfold downloadImage
    rw [if_pos hv, hst]
    dsimp only
    rw [if_pos hsu, hres]
  · intro hres
    refine ⟨?_, rfl⟩
    unfold downloadImage
    rw [if_pos hv, hst]
    dsimp only
    rw [if_pos hsu, hres]

/-- C3 (witness): the amended theorem applied at a SUCCEEDED status with
`results: []`, discharging the empty-list branch. -/
theorem downloadImage_artifact_extraction_witness :
    downloadImage exCfg (httpWith statusEmptyResults) fsClean
      ⟨"t", none, none⟩ =
      (.noArtifacts, [Ev.statusFetch "t"]) ∧
    isErrorFlagged DlOutcome.noArtifacts = some true :=
  (downloadImage_artifact_extraction exCfg (httpWith statusEmptyResults)
    fsClean ⟨"t", none, none⟩ statusEmptyResults (by decide) rfl
    (by decide)).1 (by decide)

/-- C4 (counterexample): with `task_id = "t"` and the override
`"t_1.png"` — produced by the validated `save_path = "/tmp/t_1.png"` —
the filenames of artifact 0 and artifact 1 coincide, so batch filenames
are not pairwise distinct for every validated override. -/
theorem artifactFilename_collision_cex :
    resolveTargetDir exCfg (some "/tmp/t_1.png") none =
      .resolved "/tmp" (some "t_1.png") ∧
    artifactFilename "t" (some "t_1.png") 0 =
      artifactFilename "t" (some "t_1.png") 1 ∧
    (0 : Nat) ≠ 1 :=
  ⟨by decide, by decide, by decide⟩

/-- C4 (amended): within one batch, all pattern-named files
`{task_id}_{i}.png` are pairwise distinct (in particular all filenames are
distinct when no override is present), and an override applies only to
index 0; distinctness of the override itself from the pattern names is not
guaranteed. -/
theorem artifactFilename_distinctness :
    (∀ tid i j, i ≠ j →
      artifactFilename tid none i ≠ artifactFilename tid none j) ∧
    (∀ tid cfn i j, i ≠ 0 → j ≠ 0 → i ≠ j →
      artifactFilename tid cfn i ≠ artifactFilename tid cfn j) ∧
    (∀ tid f i, i ≠ 0 →
      artifactFilename tid (some f) i = tid ++ "_" ++ Nat.repr i ++ ".png") := by
  refine ⟨?_, ?_, ?_⟩
  · intro tid i j hij h
    rw [artifactFilename_none, artifactFilename_none] at h
    exact hij (patternFilename_inj h)
  · intro tid cfn i j hi hj hij h
    obtain ⟨i, rfl⟩ := Nat.exists_eq_succ_of_ne_zero hi
    obtain ⟨j, rfl⟩ := Nat.exists_eq_succ_of_ne_zero hj
    rw [artifactFilename_pos, artifactFilename_pos] at h
    exact hij (patternFilename_inj h)
  · intro tid f i hi
    obtain ⟨i, rfl⟩ := Nat.exists_eq_succ_of_ne_zero hi
    exact artifactFilename_pos tid (some f) i

/-- C4 (witness): the amended theorem applied at concrete indices. -/
theorem artifactFilename_distinctness_witness :
    artifactFilename "t" none 0 ≠ artifactFilename "t" none 1 ∧
    artifactFilename "t" (some "t_1.png") 1 ≠
      artifactFilename "t" (some "t_1.png") 2 ∧
    artifactFilename "t" (some "t_1.png") 2 = "t" ++ "_" ++ Nat.repr 2 ++ ".png" :=
  ⟨artifactFilename_distinctness.1 "t" 0 1 (by decide),
   artifactFilename_distinctness.2.1 "t" (some "t_1.png") 1 2 (by decide)
     (by decide) (by decide),
   artifactFilename_distinctness.2.2 "t" "t_1.png" 2 (by decide)⟩

/-- C5: `save_path = "/tmp/out/pic.png"` resolves to the directory
`"/tmp/out"` with filename override `"pic.png"`; the override names only
artifact 0, and artifact 1 is named `{task_id}_1.png` (joined onto the
same resolved directory by the loop). -/
theorem downloadImage_abs_file_path_resolution
    (cfg : Config) (tid : String) (bd : Option String) :
    resolveTargetDir cfg (some "/tmp/out/pic.png") bd =
      .resolved "/tmp/out" (some "pic.png") ∧
    artifactFilename tid (some "pic.png") 0 = "pic.png" ∧
    artifactFilename tid (some "pic.png") 1 = tid ++ "_1.png" := by
  refine ⟨?_, rfl, ?_⟩
  · unfold resolveTargetDir
    dsimp only
    rw [if_neg (by decide : ¬("/tmp/out/pic.png" : String) = ""),
      if_pos (by decide : NodePath.isAbsolute "/tmp/out/pic.png" = true),
      if_pos (by decide :
        (NodePath.parse "/tmp/out/pic.png").ext ≠ "" ∧
        (NodePath.parse "/tmp/out/pic.png").base ≠
          (NodePath.parse "/tmp/out/pic.png").dir),
      if_pos (by decide : NodePath.hasSlash "/tmp/out/pic.png" = true),
      (by decide : NodePath.dirname "/tmp/out/pic.png" = "/tmp/out"),
      (by decide : (NodePath.parse "/tmp/out/pic.png").base = "pic.png"),
      finishResolve_abs (by decide : NodePath.isAbsolute "/tmp/out" = true)]
  · show tid ++ "_" ++ Nat.repr 1 ++ ".png" = tid ++ "_1.png"
    apply String.ext
    have e : ∀ a b : String, (a ++ b).data = a.data ++ b.data :=
      fun _ _ => rfl
    rw [e, e, e, e]
    simp only [List.append_assoc]
    exact congrArg (tid.data ++ ·) (by decide)

/-- C7 (counterexample): with caller-given `steps = 0` the submitted
`steps` parameter is `4`, not the caller-given value: JS `args.steps || 4`
treats `0` as falsy. -/
theorem generateImage_steps_zero_cex :
    (⟨"p", none, some 7, some 0⟩ : GenArgs).steps = some 0 ∧
    generateImage "flux-merged" (fun _ => .ok "resp") 0
      ⟨"p", none, some 7, some 0⟩ =
      (.success "resp",
        [Ev.submitGen "flux-merged" "p" ⟨"1024*1024", 7, 4⟩]) ∧
    (4 : Int) ≠ 0 :=
  ⟨rfl, by decide, by decide⟩

/-- C7 (amended): every accepted `generate_image` request issues exactly
one outbound submission and touches no filesystem state; the submitted
`size` equals the caller value when present and non-empty and defaults to
`"1024*1024"` when absent or empty, the submitted `seed` equals the caller
value whenever present and otherwise is `⌊Math.random() * 1000⌋ ∈
[0, 1000)`, and the submitted `steps` equals the caller value when present
and non-zero and defaults to `4` when absent or zero (JS falsiness). -/
theorem generateImage_one_submission_defaults
    (M : String) (post : GenParams → Except JsError String) (q : ℚ)
    (args : GenArgs) (h0 : 0 ≤ q) (h1 : q < 1) :
    (generateImage M post q args).2 =
      [Ev.submitGen M args.prompt (buildGenParams args q)] ∧
    (∀ s, args.size = some s → s ≠ "" → (buildGenParams args q).size = s) ∧
    ((args.size = none ∨ args.size = some "") →
      (buildGenParams args q).size = "1024*1024") ∧
    (∀ v, args.seed = some v → (buildGenParams args q).seed = v) ∧
    (args.seed = none →
      0 ≤ (buildGenParams args q).seed ∧ (buildGenParams args q).seed < 1000) ∧
    (∀ v, args.steps = some v → v ≠ 0 → (buildGenParams args q).steps = v) ∧
    ((args.steps = none ∨ args.steps = some 0) →
      (buildGenParams args q).steps = 4) ∧
    (∀ d, Ev.mkdirCall d ∉ (generateImage M post q args).2 ∧
      Ev.fileWrite d ∉ (generateImage M post q args).2) := by
  have htr : (generateImage M post q args).2 =
      [Ev.submitGen M args.prompt (buildGenParams args q)] := by
    unfold generateImage
    dsimp only
    cases post (buildGenParams args q) with
    | ok d => rfl
    | error e => cases e <;> rfl
  refine ⟨htr, ?_, ?_, ?_, ?_, ?_, ?_, ?_⟩
  · intro s hs hne
    simp [buildGenParams, jsOr, hs, hne]
  · rintro (hs | hs) <;> simp [buildGenParams, jsOr, hs]
  · intro v hv
    simp [buildGenParams, hv]
  · intro hv
    simp only [buildGenParams, hv]
    constructor
    · exact Int.le_floor.2 (by push_cast; positivity)
    · refine Int.floor_lt.2 ?_
      push_cast
      nlinarith
  · intro v hv hne
    simp [buildGenParams, hv, hne]
  · rintro (hv | hv) <;> simp [buildGenParams, hv]
  · intro d
    rw [htr]
    constructor <;> simp

/-- C7 (witness): the amended theorem applied at a concrete request with
`Math.random() = 1/2`: one submission, defaulted seed in range, defaulted
steps. -/
theorem generateImage_one_submission_defaults_witness :
    (generateImage "flux-merged" (fun _ => .ok "resp") (1 / 2)
      ⟨"p", none, none, none⟩).2 =
      [Ev.submitGen "flux-merged" "p"
        (buildGenParams ⟨"p", none, none, none⟩ (1 / 2))] ∧
    0 ≤ (buildGenParams ⟨"p", none, none, none⟩ (1 / 2)).seed ∧
    (buildGenParams ⟨"p", none, none, none⟩ (1 / 2)).seed < 1000 ∧
    (buildGenParams ⟨"p", none, none, none⟩ (1 / 2)).steps = 4 := by
  obtain ⟨h1, _, _, _, h5, _, h7, _⟩ :=
    generateImage_one_submission_defaults "flux-merged" (fun _ => .ok "resp")
      (1 / 2) ⟨"p", none, none, none⟩ (by norm_num) (by norm_num)
  exact ⟨h1, (h5 rfl).1, (h5 rfl).2, h7 (Or.inl rfl)⟩

/-- C8: destination resolution is a pure function of the claim's stated
inputs: two calls agreeing on `save_path` and `base_dir` (under the same
process configuration) resolve identically; the resolution consults no
filesystem oracle at all, so any two filesystem existence states trivially
agree. -/
theorem resolveTargetDir_deterministic (cfg : Config) (a1 a2 : TaskArgs)
    (h1 : a1.save_path = a2.save_path) (h2 : a1.base_dir = a2.base_dir) :
    resolveTargetDir cfg a1.save_path a1.base_dir =
      resolveTargetDir cfg a2.save_path a2.base_dir := by
  rw [h1, h2]

/-- C8 (witness): two argument records differing only in `task_id` resolve
identically. -/
theorem resolveTargetDir_deterministic_witness :
    resolveTargetDir exCfg
      (⟨"t1", some "/tmp/out/pic.png", some "/b"⟩ : TaskArgs).save_path
      (⟨"t1", some "/tmp/out/pic.png", some "/b"⟩ : TaskArgs).base_dir =
    resolveTargetDir exCfg
      (⟨"t2", some "/tmp/out/pic.png", some "/b"⟩ : TaskArgs).save_path
      (⟨"t2", some "/tmp/out/pic.png", some "/b"⟩ : TaskArgs).base_dir :=
  resolveTargetDir_deterministic exCfg
    ⟨"t1", some "/tmp/out/pic.png", some "/b"⟩
    ⟨"t2", some "/tmp/out/pic.png", some "/b"⟩ rfl rfl

/-- C6: in every retrieval the event trace splits into a phase with no
artifact fetch followed by the download loop, which performs no directory
call: every `mkdirSync` call precedes every artifact fetch.  If the
directory-creation call fails, the outcome is the distinct
`dirCreateFailed` result carrying that error and the loop never ran (zero
artifact fetches); and an artifact fetch can occur only after the resolved
directory was observed to exist or was successfully created. -/
theorem downloadImage_dir_before_artifacts (cfg : Config) (http : Http)
    (fs : Fs) (args : TaskArgs) :
    ∃ pre post,
      (downloadImage cfg http fs args).2 = pre ++ post ∧
      (∀ u, Ev.artifactFetch u ∉ pre) ∧
      (∀ d, Ev.mkdirCall d ∉ post) ∧
      (∀ m, (downloadImage cfg http fs args).1 = DlOutcome.dirCreateFailed m →
        post = []) ∧
      (∀ d m, Ev.mkdirCall d ∈ (downloadImage cfg http fs args).2 →
        fs.mkdirSync d = .error m →
        (downloadImage cfg http fs args).1 = DlOutcome.dirCreateFailed m) ∧
      (∀ u, Ev.artifactFetch u ∈ post →
        ∃ d, Ev.existsCheck d ∈ pre ∧
          (fs.existsSync d = true ∨ fs.mkdirSync d = .ok ())) := by
  unfold downloadImage
  by_cases hv : isValidTaskIdArgs args = true
  case neg =>
    rw [if_neg hv]
    exact ⟨[], [], by simp, by simp, by simp, by simp, by simp, by simp⟩
  case pos =>
    rw [if_pos hv]
    cases hst : http.getStatus args.task_id with
    | error e =>
      cases e with
      | axiosErr d =>
        exact ⟨[Ev.statusFetch args.task_id], [], by simp, by simp, by simp,
          by simp, by simp, by simp⟩
      | jsErr m =>
        exact ⟨[Ev.statusFetch args.task_id], [], by simp, by simp, by simp,
          by simp, by simp, by simp⟩
    | ok st =>
      dsimp only
      by_cases hsu : st.task_status = "SUCCEEDED"
      case neg =>
        rw [if_neg hsu]
        exact ⟨[Ev.statusFetch args.task_id], [], by simp, by simp, by simp,
          by simp, by simp, by simp⟩
      case pos =>
        rw [if_pos hsu]
        cases hres : st.results with
        | none =>
          exact ⟨[Ev.statusFetch args.task_id], [], by simp, by simp,
            by simp, by simp, by simp, by simp⟩
        | some urls =>
          cases urls with
          | nil =>
            exact ⟨[Ev.statusFetch args.task_id], [], by simp, by simp,
              by simp, by simp, by simp, by simp⟩
          | cons u0 rest =>
            cases hrt : resolveTargetDir cfg args.save_path args.base_dir with
            | invalidPath p =>
              exact ⟨[Ev.statusFetch args.task_id], [], by simp, by simp,
                by simp, by simp, by simp, by simp⟩
            | resolved dir cfn =>
              dsimp only
              unfold dirPhase
              by_cases hex : fs.existsSync dir = true
              · rw [if_pos hex]
                dsimp only
                rcases hloop : downloadLoop http fs dir args.task_id cfn
                    (u0 :: rest) 0 with ⟨r, lev⟩
                dsimp only
                refine ⟨[Ev.statusFetch args.task_id, Ev.existsCheck dir],
                  lev, by simp, by simp, ?_, ?_, ?_, ?_⟩
                · intro d hmem
                  exact downloadLoop_no_mkdir http fs dir args.task_id cfn
                    (u0 :: rest) 0 d (by rw [hloop]; exact hmem)
                · intro m hm
                  exact absurd hm (loopFinish_ne_dirCreateFailed _ _ _)
                · intro d m hmem hmk
                  have hnm := downloadLoop_no_mkdir http fs dir args.task_id
                    cfn (u0 :: rest) 0 d
                  rw [hloop] at hnm
                  simp at hmem
                  exact absurd hmem hnm
                · intro u hu
                  exact ⟨dir, by simp, Or.inl hex⟩
              · rw [if_neg hex]
                cases hmk : fs.mkdirSync dir with
                | ok v =>
                  dsimp only
                  rcases hloop : downloadLoop http fs dir args.task_id cfn
                      (u0 :: rest) 0 with ⟨r, lev⟩
                  dsimp only
                  refine ⟨[Ev.statusFetch args.task_id, Ev.existsCheck dir,
                    Ev.mkdirCall dir], lev, by simp, by simp, ?_, ?_, ?_, ?_⟩
                  · intro d hmem
                    exact downloadLoop_no_mkdir http fs dir args.task_id cfn
                      (u0 :: rest) 0 d (by rw [hloop]; exact hmem)
                  · intro m hm
                    exact absurd hm (loopFinish_ne_dirCreateFailed _ _ _)
                  · intro d m hmem hmk2
                    simp at hmem
                    rcases hmem with rfl | h
                    · rw [hmk] at hmk2
                      exact Except.noConfusion hmk2
                    · have hnm := downloadLoop_no_mkdir http fs dir
                        args.task_id cfn (u0 :: rest) 0 d
                      rw [hloop] at hnm
                      exact absurd h hnm
                  · intro u hu
                    exact ⟨dir, by simp, Or.inr (by rw [hmk])⟩
                | error m0 =>
                  dsimp only
                  refine ⟨[Ev.statusFetch args.task_id, Ev.existsCheck dir,
                    Ev.mkdirCall dir], [], by simp, by simp, by simp,
                    by simp, ?_, by simp⟩
                  intro d m hmem hmk2
                  simp at hmem
                  subst hmem
                  rw [hmk] at hmk2
                  have he : m0 = m := by injection hmk2
                  rw [he]

/-- C6 (witness): the theorem applied at a concrete run whose `mkdirSync`
raises a permission error. -/
theorem downloadImage_dir_before_artifacts_witness :
    ∃ pre post,
      (downloadImage exCfg (httpWith statusTwoResults) fsMkdirDenied
        ⟨"t", none, none⟩).2 = pre ++ post ∧
      (∀ u, Ev.artifactFetch u ∉ pre) ∧
      (∀ d, Ev.mkdirCall d ∉ post) ∧
      (∀ m, (downloadImage exCfg (httpWith statusTwoResults) fsMkdirDenied
        ⟨"t", none, none⟩).1 = DlOutcome.dirCreateFailed m → post = []) ∧
      (∀ d m, Ev.mkdirCall d ∈ (downloadImage exCfg (httpWith statusTwoResults)
          fsMkdirDenied ⟨"t", none, none⟩).2 →
        fsMkdirDenied.mkdirSync d = .error m →
        (downloadImage exCfg (httpWith statusTwoResults) fsMkdirDenied
          ⟨"t", none, none⟩).1 = DlOutcome.dirCreateFailed m) ∧
      (∀ u, Ev.artifactFetch u ∈ post →
        ∃ d, Ev.existsCheck d ∈ pre ∧
          (fsMkdirDenied.existsSync d = true ∨
            fsMkdirDenied.mkdirSync d = .ok ())) :=
  downloadImage_dir_before_artifacts exCfg (httpWith statusTwoResults)
    fsMkdirDenied ⟨"t", none, none⟩

/-- The value destination resolution takes on validated input (absolute
or empty `save_path`) under an absolute `SAVE_DIR`: always an absolute
directory, never involving `base_dir`. -/
def resolvedOfValidated (cfg : Config) (sp : Option String) :
    ResolveOutcome :=
  match sp with
  | none => .resolved cfg.SAVE_DIR none
  | some s =>
    if s = "" then .resolved cfg.SAVE_DIR none
    else if (NodePath.parse s).ext ≠ "" ∧
        (NodePath.parse s).base ≠ (NodePath.parse s).dir then
      .resolved (NodePath.dirname s) (some (NodePath.parse s).base)
    else .resolved s none

/-- On validated input with an absolute `SAVE_DIR`, resolution computes
`resolvedOfValidated`, independently of `base_dir`. -/
theorem resolveTargetDir_eval_validated (cfg : Config) (sp : Option String)
    (b : Option String)
    (hv : ∀ s, sp = some s → (NodePath.isAbsolute s || s == "") = true)
    (hs : NodePath.isAbsolute cfg.SAVE_DIR = true) :
    resolveTargetDir cfg sp b = resolvedOfValidated cfg sp := by
  cases sp with
  | none =>
    unfold resolveTargetDir resolvedOfValidated
    dsimp only
    rw [finishResolve_abs hs]
  | some s =>
    by_cases hse : s = ""
    · subst hse
      unfold resolveTargetDir resolvedOfValidated
      dsimp only
      rw [if_pos rfl, finishResolve_abs hs, if_pos rfl]
    · have habs : NodePath.isAbsolute s = true := by
        have h := hv s rfl
        cases hb : NodePath.isAbsolute s with
        | true => rfl
        | false =>
          rw [hb] at h
          simp at h
          exact absurd h hse
      unfold resolveTargetDir resolvedOfValidated
      dsimp only
      rw [if_neg hse, if_pos habs]
      by_cases hx : (NodePath.parse s).ext ≠ "" ∧
          (NodePath.parse s).base ≠ (NodePath.parse s).dir
      · rw [if_pos hx, if_pos (NodePath.hasSlash_of_isAbsolute habs),
          finishResolve_abs (NodePath.isAbsolute_dirname habs), if_neg hse,
          if_pos hx]
      · rw [if_neg hx, finishResolve_abs habs, if_neg hse, if_neg hx]

theorem resolveTargetDir_indep_base (cfg : Config) (sp : Option String)
    (hv : ∀ s, sp = some s → (NodePath.isAbsolute s || s == "") = true)
    (hs : NodePath.isAbsolute cfg.SAVE_DIR = true) (b1 b2 : Option String) :
    resolveTargetDir cfg sp b1 = resolveTargetDir cfg sp b2 := by
  rw [resolveTargetDir_eval_validated cfg sp b1 hv hs,
    resolveTargetDir_eval_validated cfg sp b2 hv hs]

/-- C9: two validated `download_image` runs differing only in
`base_dir` (same `task_id`, same `save_path`, same configuration with an
absolute `SAVE_DIR`, same oracles) produce identical outcomes and
identical event traces — in particular identical resolved directories and
`saved_to` paths. -/
theorem downloadImage_indep_of_base_dir (cfg : Config) (http : Http)
    (fs : Fs) (tid : String) (sp b1 b2 : Option String)
    (hv : isValidTaskIdArgs ⟨tid, sp, b1⟩ = true)
    (hs : NodePath.isAbsolute cfg.SAVE_DIR = true) :
    downloadImage cfg http fs ⟨tid, sp, b1⟩ =
      downloadImage cfg http fs ⟨tid, sp, b2⟩ := by
  have hv' : ∀ s, sp = some s → (NodePath.isAbsolute s || s == "") = true := by
    intro s hsp
    rw [hsp] at hv
    simpa [isValidTaskIdArgs] using hv
  have hres := resolveTargetDir_indep_base cfg sp hv' hs b1 b2
  unfold downloadImage
  dsimp only
  rw [hres]
  rfl

/-- C9 (witness): the theorem applied at two concrete runs differing only
in `base_dir`. -/
theorem downloadImage_indep_of_base_dir_witness :
    downloadImage exCfg (httpWith statusTwoResults) fsClean
      ⟨"t", some "/tmp/out/pic.png", none⟩ =
    downloadImage exCfg (httpWith statusTwoResults) fsClean
      ⟨"t", some "/tmp/out/pic.png", some "/elsewhere"⟩ :=
  downloadImage_indep_of_base_dir exCfg (httpWith statusTwoResults) fsClean
    "t" (some "/tmp/out/pic.png") none (some "/elsewhere") (by decide)
    (by decide)

/-- C10: when a filesystem entry (of any kind, e.g. a regular file)
already exists at the resolved directory path, `existsSync` is true, so
directory creation is skipped entirely: no `mkdirSync` call occurs and the
`dirCreateFailed` result is impossible.  If the first artifact's write
then raises a non-axios error, that error propagates as a thrown exception
to the dispatch layer (not an error-flagged result), after exactly one
fetch and one write attempt. -/
theorem downloadImage_existing_entry_skips_mkdir
    (cfg : Config) (http : Http) (fs : Fs) (args : TaskArgs)
    (st : TaskStatus) (u0 : String) (rest : List String) (dir : String)
    (cfn : Option String)
    (hv : isValidTaskIdArgs args = true)
    (hst : http.getStatus args.task_id = .ok st)
    (hsu : st.task_status = "SUCCEEDED")
    (hres : st.results = some (u0 :: rest))
    (hrt : resolveTargetDir cfg args.save_path args.base_dir =
      .resolved dir cfn)
    (hex : fs.existsSync dir = true) :
    (∀ d, Ev.mkdirCall d ∉ (downloadImage cfg http fs args).2) ∧
    (∀ m, (downloadImage cfg http fs args).1 ≠ DlOutcome.dirCreateFailed m) ∧
    (∀ m, http.getArtifact u0 = .ok () →
      fs.writeFile (NodePath.join dir (artifactFilename args.task_id cfn 0)) =
        .error (.jsErr m) →
      downloadImage cfg http fs args =
        (.thrown m,
          [Ev.statusFetch args.task_id, Ev.existsCheck dir,
            Ev.artifactFetch u0,
            Ev.fileWrite
              (NodePath.join dir (artifactFilename args.task_id cfn 0))]) ∧
      isErrorFlagged (DlOutcome.thrown m) = none) := by
  have key : downloadImage cfg http fs args =
      (match downloadLoop http fs dir args.task_id cfn (u0 :: rest) 0 with
       | (r, lev) =>
         (loopFinish args.task_id r,
           Ev.statusFetch args.task_id :: [Ev.existsCheck dir] ++ lev)) := by
    unfold downloadImage
    rw [if_pos hv, hst]
    dsimp only
    rw [if_pos hsu, hres]
    dsimp only
    rw [hrt]
    dsimp only
    unfold dirPhase
    rw [if_pos hex]
  refine ⟨?_, ?_, ?_⟩
  · intro d hmem
    rw [key] at hmem
    rcases hloop : downloadLoop http fs dir args.task_id cfn
        (u0 :: rest) 0 with ⟨r, lev⟩
    rw [hloop] at hmem
    dsimp only at hmem
    have hnm := downloadLoop_no_mkdir http fs dir args.task_id cfn
      (u0 :: rest) 0 d
    rw [hloop] at hnm
    simp at hmem
    exact hnm hmem
  · intro m hm
    rw [key] at hm
    rcases hloop : downloadLoop http fs dir args.task_id cfn
        (u0 :: rest) 0 with ⟨r, lev⟩
    rw [hloop] at hm
    dsimp only at hm
    exact absurd hm (loopFinish_ne_dirCreateFailed _ _ _)
  · intro m hga hw
    rw [key, downloadLoop_first_write_error http fs dir args.task_id cfn u0
      rest (.jsErr m) hga hw]
    exact ⟨rfl, rfl⟩

/-- C10 (witness): the theorem applied at a run where every path exists
(a file sits at the resolved directory) and the write raises `ENOTDIR`. -/
theorem downloadImage_existing_entry_skips_mkdir_witness :
    (∀ d, Ev.mkdirCall d ∉ (downloadImage exCfg (httpWith statusTwoResults)
      fsFileInWay ⟨"t", some "/tmp/out/pic.png", none⟩).2) ∧
    (∀ m, (downloadImage exCfg (httpWith statusTwoResults) fsFileInWay
      ⟨"t", some "/tmp/out/pic.png", none⟩).1 ≠
        DlOutcome.dirCreateFailed m) ∧
    downloadImage exCfg (httpWith statusTwoResults) fsFileInWay
      ⟨"t", some "/tmp/out/pic.png", none⟩ =
      (.thrown "ENOTDIR: not a directory",
        [Ev.statusFetch "t", Ev.existsCheck "/tmp/out",
          Ev.artifactFetch "u0",
          Ev.fileWrite (NodePath.join "/tmp/out"
            (artifactFilename "t" (some "pic.png") 0))]) ∧
    isErrorFlagged (DlOutcome.thrown "ENOTDIR: not a directory") = none := by
  obtain ⟨h1, h2, h3⟩ :=
    downloadImage_existing_entry_skips_mkdir exCfg
      (httpWith statusTwoResults) fsFileInWay
      ⟨"t", some "/tmp/out/pic.png", none⟩ statusTwoResults "u0" ["u1"]
      "/tmp/out" (some "pic.png") (by decide) rfl (by decide) (by decide)
      (by decide) rfl
  obtain ⟨h3a, h3b⟩ := h3 "ENOTDIR: not a directory" rfl rfl
  exact ⟨h1, h2, h3a, h3b⟩

end AliFlux
